import Mathlib

/-!
Verification of errnoToString (terminator/native/all/pty/errnoToString.cpp).

A shallow embedding of the two overloads of `gnuCompatibleStrerror` and of
`errnoToString`.

* A `char` cell is a `Char`; an array of cells is a `List Char`.
* An `int` (error number, status, errno) is an `Int`: the program does no arithmetic
  on them. A `size_t` is a `Nat`, with `bufferSize - 1` taken modulo `SIZE_MOD`.
* The ambient `errno` is threaded explicitly: every operation takes the errno it
  finds and gives back the errno it leaves.
* The platform's `strerror_r` is not part of the program: it is a parameter, of
  one of two signatures, and may behave in any way.
* An access outside an array is undefined behaviour in C++; here it is `none`.
-/

namespace ErrnoToString

/-- The terminator of a C string: the cell with value 0. -/
def NUL : Char := Char.ofNat 0

/-- Arithmetic on `size_t` is modulo this (a 64-bit `size_t`). -/
def SIZE_MOD : Nat := 2 ^ 64

/-- The `sizeof(messageBuffer)` of `char messageBuffer[1024]`. -/
def messageBufferSize : Nat := 1024

/-- The two constants of `errno.h` named by the switch in `errnoToString`. Their
values are the platform's, so they are taken as parameters; a `switch` compiles only
when its case labels differ. -/
structure ErrnoH where
  EINVAL : Int
  ERANGE : Int
  distinct : EINVAL ≠ ERANGE

/-- What a call `int strerror_r(int, char*, size_t)` leaves behind: the status it
returns, the cells of the buffer it was given, and errno. -/
structure XsiOutcome where
  status : Int
  messageBuffer : List Char
  errno : Int
deriving DecidableEq

/-- The value of the `char*` a pointer-returning `strerror_r` returns: the buffer it
was given, or storage elsewhere, given by the cells found from that address on. -/
inductive Pointer where
  | messageBuffer : Pointer
  | elsewhere (cells : List Char) : Pointer
deriving DecidableEq

/-- What a call `char* strerror_r(int, char*, size_t)` leaves behind: the pointer it
returns, the cells of the buffer it was given, and errno. -/
structure GnuOutcome where
  pointer : Pointer
  messageBuffer : List Char
  errno : Int
deriving DecidableEq

/-- The status-reporting primitive, applied to the error number, the cells of the
buffer, the buffer size and the errno it finds. -/
abbrev XsiStrerror := Int → List Char → Nat → Int → XsiOutcome

/-- The pointer-returning primitive, applied to the error number, the cells of the
buffer, the buffer size and the errno it finds. -/
abbrev GnuStrerror := Int → List Char → Nat → Int → GnuOutcome

/-- The `strerror_r` of the platform; `&strerror_r` selects the overload of
`gnuCompatibleStrerror` by its signature when the program is built. -/
inductive StrerrorR where
  | xsi (f : XsiStrerror) : StrerrorR
  | gnu (f : GnuStrerror) : StrerrorR

/-- What a call of `gnuCompatibleStrerror` leaves behind: the `int` it returns, the
cells of `messageBuffer`, and errno. -/
structure Returned where
  status : Int
  messageBuffer : List Char
  errno : Int
deriving DecidableEq

/-- The assignment `buffer[i] = c`; `none` when `i` is outside the array. -/
def store (buffer : List Char) (i : Nat) (c : Char) : Option (List Char) :=
  if i < buffer.length then some (buffer.set i c) else none

/-- The `n` cells `strncpy(dest, src, n)` stores: the cells of `src` up to its first
NUL, then NULs up to `n` cells; no terminator when `src` has no NUL among its first
`n` cells. `none` when the read runs off the cells of `src`. -/
def strncpyCells : Nat → List Char → Option (List Char)
  | 0, _ => some []
  | _ + 1, [] => none
  | n + 1, c :: src =>
    if c = NUL then some (List.replicate (n + 1) NUL)
    else (strncpyCells n src).map (fun cells => c :: cells)

/-- The call `strncpy(dest, src, n)`: the first `n` cells of `dest` are replaced;
`none` when `dest` has fewer than `n` cells. -/
def strncpy (dest src : List Char) (n : Nat) : Option (List Char) :=
  if n ≤ dest.length then
    (strncpyCells n src).map (fun cells => cells ++ dest.drop n)
  else none

/-- The text of the C string that starts at the first cell: the cells before the
first NUL. `none` when no cell is NUL: the read runs off the array. This is the
conversion `std::string(const char*)` of `return messageBuffer;`. -/
def cString : List Char → Option (List Char)
  | [] => none
  | c :: cells => if c = NUL then some [] else (cString cells).map (fun text => c :: text)

/-- The overload
`int gnuCompatibleStrerror(int (*strerror_r)(int, char*, size_t), int, char*, size_t)`. -/
def gnuCompatibleStrerrorInt (strerror_r : XsiStrerror) (errorNumber : Int)
    (messageBuffer : List Char) (bufferSize : Nat) (errno : Int) : Option Returned :=
  let out := strerror_r errorNumber messageBuffer bufferSize errno
  some ⟨out.status, out.messageBuffer, out.errno⟩

/-- The overload
`int gnuCompatibleStrerror(char* (*strerror_r)(int, char*, size_t), int, char*, size_t)`. -/
def gnuCompatibleStrerrorPtr (strerror_r : GnuStrerror) (errorNumber : Int)
    (messageBuffer : List Char) (bufferSize : Nat) (errno : Int) : Option Returned :=
  let out := strerror_r errorNumber messageBuffer bufferSize errno
  match out.pointer with
  | Pointer.messageBuffer => some ⟨0, out.messageBuffer, out.errno⟩
  | Pointer.elsewhere intermediateBuffer =>
    match strncpy out.messageBuffer intermediateBuffer bufferSize with
    | none => none
    | some copied =>
      match store copied ((bufferSize + SIZE_MOD - 1) % SIZE_MOD) NUL with
      | none => none
      | some terminated => some ⟨0, terminated, out.errno⟩

/-- Overload resolution on the type of `&strerror_r`. -/
def gnuCompatibleStrerror (strerror_r : StrerrorR) (errorNumber : Int)
    (messageBuffer : List Char) (bufferSize : Nat) (errno : Int) : Option Returned :=
  match strerror_r with
  | StrerrorR.xsi f => gnuCompatibleStrerrorInt f errorNumber messageBuffer bufferSize errno
  | StrerrorR.gnu f => gnuCompatibleStrerrorPtr f errorNumber messageBuffer bufferSize errno

/-- The function `std::string errnoToString()`. `stack` is the indeterminate content
of the local `char messageBuffer[1024]`, `errno` the ambient errno at entry; the
result is the returned string and the errno at return. -/
def errnoToString (c : ErrnoH) (strerror_r : StrerrorR) (stack : List Char) (errno : Int) :
    Option (String × Int) :=
  let errorNumber := errno
  match gnuCompatibleStrerror strerror_r errorNumber stack messageBufferSize errno with
  | none => none
  | some r =>
    if r.status = -1 then
      let decodingError := r.errno
      if decodingError = c.EINVAL then
        some ("The value " ++ toString errorNumber ++ " is not a valid error number.", r.errno)
      else if decodingError = c.ERANGE then
        some (toString messageBufferSize ++
          " bytes was not enough to contain the error description string for error number " ++
          toString errorNumber ++ ".", r.errno)
      else
        some ("Decoding error number " ++ toString errorNumber ++ " produced error " ++
          toString decodingError ++ ".", r.errno)
    else
      match cString r.messageBuffer with
      | none => none
      | some text => some (String.mk text, r.errno)

/-! ## Concrete platforms used at the concrete inputs -/

/-- The values of `errno.h` on Linux. -/
def linux : ErrnoH := ⟨22, 34, by decide⟩

/-- A 1024-cell buffer that holds a text, its terminator, and cells `x` after it. -/
def bufferOf (text : String) : List Char :=
  text.data ++ NUL :: List.replicate (1023 - text.length) 'x'

/-- An indeterminate content of the local array with no NUL in it: 1024 cells `x`. -/
def garbage : List Char := List.replicate 1024 'x'

/-- A status-reporting primitive in the manner of glibc before 2.13: it knows the
codes 2 and 22; for any other code it returns -1 and leaves EINVAL in errno. -/
def oldGlibc : XsiStrerror := fun errorNumber messageBuffer _ errno =>
  if errorNumber = 2 then
    ⟨0, bufferOf "No such file or directory", errno⟩
  else if errorNumber = 22 then
    ⟨0, bufferOf "Invalid argument", errno⟩
  else ⟨-1, messageBuffer, 22⟩

/-- A status-reporting primitive that fails on every code: it returns -1, leaves the
reason `M` in errno and does not touch the buffer. -/
def failsWith (M : Int) : XsiStrerror := fun _ messageBuffer _ _ =>
  ⟨-1, messageBuffer, M⟩

/-- A status-reporting primitive in the manner of POSIX.1-2008 and glibc since 2.13:
the reason is the returned status, errno is left alone; for an unknown code the
buffer gets the platform's text for unknown codes. -/
def newGlibc : XsiStrerror := fun errorNumber _ _ errno =>
  if errorNumber = 2 then
    ⟨0, bufferOf "No such file or directory", errno⟩
  else ⟨22, bufferOf ("Unknown error " ++ toString errorNumber), errno⟩

/-- A status-reporting primitive that returns the reason `M` as its status and does
not touch the buffer. -/
def returnsReason (M : Int) : XsiStrerror := fun _ messageBuffer _ errno =>
  ⟨M, messageBuffer, errno⟩

/-- A pointer-returning primitive that returns the buffer it was given, untouched. -/
def gnuInPlace : GnuStrerror := fun _ messageBuffer _ errno =>
  ⟨Pointer.messageBuffer, messageBuffer, errno⟩

/-- A pointer-returning primitive that returns a text held in static storage and does
not touch the buffer. -/
def gnuStatic (text : String) : GnuStrerror := fun _ messageBuffer _ errno =>
  ⟨Pointer.elsewhere (text.data ++ [NUL]), messageBuffer, errno⟩

/-! ## Lemmas on strings -/

theorem data_head_append (s t : String) (h : s.data ≠ []) :
    (s ++ t).data.head? = s.data.head? := by
  rw [String.data_append]
  cases hs : s.data with
  | nil => exact absurd hs h
  | cons a l => rfl

theorem cString_append (t rest : List Char) (ht : NUL ∉ t) :
    cString (t ++ NUL :: rest) = some t := by
  induction t with
  | nil => simp [cString]
  | cons a t ih =>
    have ha : a ≠ NUL := fun h => ht (by simp [h])
    have ht2 : NUL ∉ t := fun h => ht (by simp [h])
    simp [cString, ha, ih ht2]

theorem cString_eq_none (l : List Char) (hl : NUL ∉ l) : cString l = none := by
  induction l with
  | nil => rfl
  | cons a l ih =>
    have ha : a ≠ NUL := fun h => hl (by simp [h])
    have hl2 : NUL ∉ l := fun h => hl (by simp [h])
    simp [cString, ha, ih hl2]

theorem cString_some (l t : List Char) (h : cString l = some t) :
    NUL ∉ t ∧ ∃ rest, l = t ++ NUL :: rest := by
  induction l generalizing t with
  | nil => simp [cString] at h
  | cons a l ih =>
    by_cases ha : a = NUL
    · simp [cString, ha] at h
      subst h
      exact ⟨by simp, l, by simp [ha]⟩
    · simp only [cString, ha, if_false] at h
      cases hu : cString l with
      | none => rw [hu] at h; simp at h
      | some u =>
      rw [hu] at h
      have h : a :: u = t := by simpa using h
      subst h
      obtain ⟨h1, rest, h2⟩ := ih u hu
      refine ⟨?_, rest, by simp [h2]⟩
      intro hmem
      rcases List.mem_cons.mp hmem with h | h
      · exact ha h.symm
      · exact h1 h

theorem cString_length_lt (l t : List Char) (h : cString l = some t) :
    t.length < l.length := by
  obtain ⟨_, rest, rfl⟩ := cString_some l t h
  simp

theorem cString_of_mem (l : List Char) (h : NUL ∈ l) : ∃ t, cString l = some t := by
  cases hc : cString l with
  | some t => exact ⟨t, rfl⟩
  | none =>
    exfalso
    induction l with
    | nil => simp at h
    | cons a l ih =>
      by_cases ha : a = NUL
      · simp [cString, ha] at hc
      · simp only [cString, ha, if_false] at hc
        have hc : cString l = none := by
          cases hl : cString l with
          | none => rfl
          | some u => simp [hl] at hc
        rcases List.mem_cons.mp h with h | h
        · exact ha h.symm
        · exact ih h hc

theorem strncpyCells_text (n : Nat) (t rest : List Char) (ht : NUL ∉ t) :
    strncpyCells n (t ++ NUL :: rest) =
      some (t.take n ++ List.replicate (n - t.length) NUL) := by
  induction n generalizing t with
  | zero => simp [strncpyCells]
  | succ n ih =>
    cases t with
    | nil => simp [strncpyCells]
    | cons a t =>
      have ha : a ≠ NUL := fun h => ht (by simp [h])
      have ht2 : NUL ∉ t := fun h => ht (by simp [h])
      simp [strncpyCells, ha, ih t ht2]

theorem set_terminator (t : List Char) (B : Nat) (hB : 1 ≤ B) :
    (t.take B ++ List.replicate (B - t.length) NUL).set (B - 1) NUL =
      t.take (B - 1) ++ List.replicate (B - min t.length (B - 1)) NUL := by
  by_cases h : t.length ≤ B - 1
  · have h1 : t.take B = t := List.take_of_length_le (by omega)
    have h2 : t.take (B - 1) = t := List.take_of_length_le h
    have h3 : ¬ (B - 1 < t.length) := by omega
    rw [h1, h2, List.set_append, if_neg h3, List.set_replicate_self, Nat.min_eq_left h]
  · have h1 : B - t.length = 0 := by omega
    have h2 : min t.length (B - 1) = B - 1 := by omega
    have h3 : B - (B - 1) = 1 := by omega
    have h4 : B - 1 < (t.take B).length := by simp; omega
    rw [h1, h2, h3, List.replicate_zero, List.append_nil, List.set_eq_take_append_cons_drop,
      if_pos h4, List.take_take]
    have h5 : min (B - 1) B = B - 1 := by omega
    have h6 : B - 1 + 1 = B := by omega
    rw [h5, h6]
    simp
/-! ## The status-reporting variant, unfolded -/

theorem errnoToString_xsi (c : ErrnoH) (f : XsiStrerror) (stack : List Char) (N : Int) :
    errnoToString c (StrerrorR.xsi f) stack N =
      if (f N stack messageBufferSize N).status = -1 then
        if (f N stack messageBufferSize N).errno = c.EINVAL then
          some ("The value " ++ toString N ++ " is not a valid error number.",
            (f N stack messageBufferSize N).errno)
        else if (f N stack messageBufferSize N).errno = c.ERANGE then
          some (toString messageBufferSize ++
            " bytes was not enough to contain the error description string for error number " ++
            toString N ++ ".", (f N stack messageBufferSize N).errno)
        else
          some ("Decoding error number " ++ toString N ++ " produced error " ++
            toString (f N stack messageBufferSize N).errno ++ ".",
            (f N stack messageBufferSize N).errno)
      else
        match cString (f N stack messageBufferSize N).messageBuffer with
        | none => none
        | some text => some (String.mk text, (f N stack messageBufferSize N).errno) := by
  rfl

theorem toString_messageBufferSize : toString messageBufferSize = "1024" := by decide

theorem head_invalid_number (N : Int) :
    ("The value " ++ toString N ++ " is not a valid error number.").data.head? = some 'T' := by
  rw [String.data_append, String.data_append]; rfl

theorem head_other_reason (N M : Int) :
    ("Decoding error number " ++ toString N ++ " produced error " ++ toString M
      ++ ".").data.head? = some 'D' := by
  rw [String.data_append, String.data_append, String.data_append, String.data_append]; rfl

/-! ## The pointer-returning overload, unfolded -/

theorem size_minus_one (B : Nat) (hB : 1 ≤ B) (hmod : B < SIZE_MOD) :
    (B + SIZE_MOD - 1) % SIZE_MOD = B - 1 := by
  have h : B + SIZE_MOD - 1 = (B - 1) + SIZE_MOD := by omega
  rw [h, Nat.add_mod_right, Nat.mod_eq_of_lt (by omega)]

theorem gnuCompatibleStrerrorPtr_status (f : GnuStrerror) (n : Int) (buf : List Char)
    (B : Nat) (e : Int) (r : Returned) (h : gnuCompatibleStrerrorPtr f n buf B e = some r) :
    r.status = 0 := by
  cases hp : (f n buf B e).pointer with
  | messageBuffer =>
    simp only [gnuCompatibleStrerrorPtr, hp] at h
    cases h; rfl
  | elsewhere src =>
    simp only [gnuCompatibleStrerrorPtr, hp] at h
    split at h
    · cases h
    · split at h
      · cases h
      · cases h; rfl

theorem gnuCompatibleStrerrorPtr_errno (f : GnuStrerror) (n : Int) (buf : List Char)
    (B : Nat) (e : Int) (r : Returned) (h : gnuCompatibleStrerrorPtr f n buf B e = some r) :
    r.errno = (f n buf B e).errno := by
  cases hp : (f n buf B e).pointer with
  | messageBuffer =>
    simp only [gnuCompatibleStrerrorPtr, hp] at h
    cases h; rfl
  | elsewhere src =>
    simp only [gnuCompatibleStrerrorPtr, hp] at h
    split at h
    · cases h
    · split at h
      · cases h
      · cases h; rfl

theorem gnuCompatibleStrerrorPtr_in_place (f : GnuStrerror) (n : Int) (buf : List Char)
    (B : Nat) (e : Int) (hp : (f n buf B e).pointer = Pointer.messageBuffer) :
    gnuCompatibleStrerrorPtr f n buf B e =
      some ⟨0, (f n buf B e).messageBuffer, (f n buf B e).errno⟩ := by
  unfold gnuCompatibleStrerrorPtr
  simp only [hp]

theorem gnuCompatibleStrerrorPtr_copy (f : GnuStrerror) (n : Int) (buf : List Char)
    (B : Nat) (e : Int) (t rest : List Char) (hB : 1 ≤ B) (hmod : B < SIZE_MOD)
    (hlen : (f n buf B e).messageBuffer.length = B)
    (hp : (f n buf B e).pointer = Pointer.elsewhere (t ++ NUL :: rest)) (ht : NUL ∉ t) :
    gnuCompatibleStrerrorPtr f n buf B e =
      some ⟨0, t.take (B - 1) ++ List.replicate (B - min t.length (B - 1)) NUL,
        (f n buf B e).errno⟩ := by
  have hdrop : List.drop B (f n buf B e).messageBuffer = [] :=
    List.drop_of_length_le (by omega)
  have hcopy : strncpy (f n buf B e).messageBuffer (t ++ NUL :: rest) B =
      some (t.take B ++ List.replicate (B - t.length) NUL) := by
    unfold strncpy
    rw [if_pos (by omega), strncpyCells_text B t rest ht, hdrop]
    simp
  have hstore : store (t.take B ++ List.replicate (B - t.length) NUL)
      ((B + SIZE_MOD - 1) % SIZE_MOD) NUL =
      some (t.take (B - 1) ++ List.replicate (B - min t.length (B - 1)) NUL) := by
    unfold store
    rw [size_minus_one B hB hmod, if_pos (by simp; omega), set_terminator t B hB]
  unfold gnuCompatibleStrerrorPtr
  simp only [hp, hcopy, hstore]

theorem errnoToString_gnu (c : ErrnoH) (f : GnuStrerror) (stack : List Char) (N : Int) :
    errnoToString c (StrerrorR.gnu f) stack N =
      match gnuCompatibleStrerrorPtr f N stack messageBufferSize N with
      | none => none
      | some r =>
        match cString r.messageBuffer with
        | none => none
        | some text => some (String.mk text, r.errno) := by
  simp only [errnoToString, gnuCompatibleStrerror]
  cases h : gnuCompatibleStrerrorPtr f N stack messageBufferSize N with
  | none => rfl
  | some r =>
    have h0 : r.status = 0 := gnuCompatibleStrerrorPtr_status f N stack _ N r h
    simp [h0]

theorem copied_buffer (t : List Char) (B : Nat) (hB : 1 ≤ B) (ht : NUL ∉ t) :
    (t.take (B - 1) ++ List.replicate (B - min t.length (B - 1)) NUL).length = B ∧
    cString (t.take (B - 1) ++ List.replicate (B - min t.length (B - 1)) NUL) =
      some (t.take (B - 1)) := by
  constructor
  · simp; omega
  · have h : B - min t.length (B - 1) = (B - min t.length (B - 1) - 1) + 1 := by omega
    rw [h, List.replicate_succ]
    exact cString_append _ _ (fun hm => ht (List.mem_of_mem_take hm))

theorem errnoToString_gnu_copy (c : ErrnoH) (f : GnuStrerror) (stack : List Char) (N : Int)
    (t rest : List Char)
    (hlen : (f N stack messageBufferSize N).messageBuffer.length = messageBufferSize)
    (hp : (f N stack messageBufferSize N).pointer = Pointer.elsewhere (t ++ NUL :: rest))
    (ht : NUL ∉ t) :
    errnoToString c (StrerrorR.gnu f) stack N =
      some (String.mk (t.take 1023), (f N stack messageBufferSize N).errno) := by
  have hsize : messageBufferSize - 1 = 1023 := rfl
  have hcopy := gnuCompatibleStrerrorPtr_copy f N stack messageBufferSize N t rest
    (by decide) (by decide) hlen hp ht
  have hread := (copied_buffer t messageBufferSize (by decide) ht).2
  rw [hsize] at hcopy hread
  rw [errnoToString_gnu, hcopy]
  simp only [hread]

theorem errnoToString_xsi_terminated (c : ErrnoH) (f : XsiStrerror) (stack : List Char)
    (N : Int) (hstatus : (f N stack messageBufferSize N).status ≠ -1)
    (hlen : (f N stack messageBufferSize N).messageBuffer.length = messageBufferSize)
    (hmem : NUL ∈ (f N stack messageBufferSize N).messageBuffer) :
    ∃ text rest : List Char,
      (f N stack messageBufferSize N).messageBuffer = text ++ NUL :: rest ∧ NUL ∉ text ∧
      errnoToString c (StrerrorR.xsi f) stack N =
        some (String.mk text, (f N stack messageBufferSize N).errno) ∧
      (String.mk text).length ≤ 1023 := by
  obtain ⟨text, htext⟩ := cString_of_mem _ hmem
  obtain ⟨hno, rest, hsplit⟩ := cString_some _ _ htext
  refine ⟨text, rest, hsplit, hno, ?_, ?_⟩
  · rw [errnoToString_xsi, if_neg hstatus, htext]
  · have := cString_length_lt _ _ htext
    rw [hlen] at this
    show text.length ≤ 1023
    have h1024 : messageBufferSize = 1024 := rfl
    omega

theorem errnoToString_gnu_terminated (c : ErrnoH) (f : GnuStrerror) (stack : List Char)
    (N : Int) (hp : (f N stack messageBufferSize N).pointer = Pointer.messageBuffer)
    (hlen : (f N stack messageBufferSize N).messageBuffer.length = messageBufferSize)
    (hmem : NUL ∈ (f N stack messageBufferSize N).messageBuffer) :
    ∃ text rest : List Char,
      (f N stack messageBufferSize N).messageBuffer = text ++ NUL :: rest ∧ NUL ∉ text ∧
      errnoToString c (StrerrorR.gnu f) stack N =
        some (String.mk text, (f N stack messageBufferSize N).errno) ∧
      (String.mk text).length ≤ 1023 := by
  obtain ⟨text, htext⟩ := cString_of_mem _ hmem
  obtain ⟨hno, rest, hsplit⟩ := cString_some _ _ htext
  refine ⟨text, rest, hsplit, hno, ?_, ?_⟩
  · rw [errnoToString_gnu, gnuCompatibleStrerrorPtr_in_place f N stack messageBufferSize N hp]
    simp only [htext]
  · have := cString_length_lt _ _ htext
    rw [hlen] at this
    show text.length ≤ 1023
    have h1024 : messageBufferSize = 1024 := rfl
    omega

theorem errnoToString_xsi_unterminated (c : ErrnoH) (f : XsiStrerror) (stack : List Char)
    (N : Int) (hstatus : (f N stack messageBufferSize N).status ≠ -1)
    (hmem : NUL ∉ (f N stack messageBufferSize N).messageBuffer) :
    errnoToString c (StrerrorR.xsi f) stack N = none := by
  rw [errnoToString_xsi, if_neg hstatus, cString_eq_none _ hmem]

theorem errnoToString_gnu_unterminated (c : ErrnoH) (f : GnuStrerror) (stack : List Char)
    (N : Int) (hp : (f N stack messageBufferSize N).pointer = Pointer.messageBuffer)
    (hmem : NUL ∉ (f N stack messageBufferSize N).messageBuffer) :
    errnoToString c (StrerrorR.gnu f) stack N = none := by
  rw [errnoToString_gnu, gnuCompatibleStrerrorPtr_in_place f N stack messageBufferSize N hp]
  simp only [cString_eq_none _ hmem]

/-! ## Facts on the concrete inputs -/

theorem garbage_length : garbage.length = 1024 :=
  List.length_replicate 1024 'x'

theorem garbage_no_terminator : NUL ∉ garbage := by
  intro h
  have h2 := List.eq_of_mem_replicate h
  exact absurd h2 (by decide)

theorem bufferOf_enoent_length :
    (oldGlibc 2 garbage messageBufferSize 2).messageBuffer.length = messageBufferSize := by
  show ("No such file or directory".data ++
    NUL :: List.replicate (1023 - "No such file or directory".length) 'x').length = 1024
  simp only [List.length_append, List.length_cons, List.length_replicate, List.length_nil]
  rfl

theorem bufferOf_enoent_terminated :
    NUL ∈ (oldGlibc 2 garbage messageBufferSize 2).messageBuffer := by
  show NUL ∈ "No such file or directory".data ++
    NUL :: List.replicate (1023 - "No such file or directory".length) 'x'
  exact List.mem_append_right _ (List.mem_cons_self _ _)

/-! ## The three synthetic messages -/

/-- C1: when the status-reporting primitive returns -1 and leaves EINVAL in errno,
errnoToString returns exactly "The value N is not a valid error number.", where N is
the code captured from errno at entry, in decimal. -/
theorem errnoToString_invalid_number (c : ErrnoH) (f : XsiStrerror) (stack : List Char)
    (N : Int)
    (hstatus : (f N stack messageBufferSize N).status = -1)
    (hreason : (f N stack messageBufferSize N).errno = c.EINVAL) :
    errnoToString c (StrerrorR.xsi f) stack N =
      some ("The value " ++ toString N ++ " is not a valid error number.", c.EINVAL) := by
  rw [errnoToString_xsi, if_pos hstatus, if_pos hreason, hreason]

theorem errnoToString_invalid_number_witness :
    errnoToString linux (StrerrorR.xsi oldGlibc) garbage 99999 =
      some ("The value 99999 is not a valid error number.", 22) :=
  errnoToString_invalid_number linux oldGlibc garbage 99999
    (by decide) (by decide)

/-- C2: when the status-reporting primitive returns -1 and leaves ERANGE in errno,
errnoToString returns exactly "1024 bytes was not enough to contain the error
description string for error number N.": the size of the local buffer and the code
captured at entry. -/
theorem errnoToString_buffer_too_small (c : ErrnoH) (f : XsiStrerror) (stack : List Char)
    (N : Int)
    (hstatus : (f N stack messageBufferSize N).status = -1)
    (hreason : (f N stack messageBufferSize N).errno = c.ERANGE) :
    messageBufferSize = 1024 ∧
    errnoToString c (StrerrorR.xsi f) stack N =
      some ("1024 bytes was not enough to contain the error description string for error number "
        ++ toString N ++ ".", c.ERANGE) := by
  refine ⟨rfl, ?_⟩
  have hne : c.ERANGE ≠ c.EINVAL := fun h => c.distinct h.symm
  rw [errnoToString_xsi, if_pos hstatus, hreason, if_neg hne, if_pos rfl,
    toString_messageBufferSize]
  rfl

theorem errnoToString_buffer_too_small_witness :
    messageBufferSize = 1024 ∧
    errnoToString linux (StrerrorR.xsi (failsWith 34)) garbage 5 =
      some ("1024 bytes was not enough to contain the error description string for error number 5.",
        34) :=
  errnoToString_buffer_too_small linux (failsWith 34) garbage 5 (by decide) (by decide)

/-- C3: when the status-reporting primitive returns -1 and leaves in errno a reason M
that is neither EINVAL nor ERANGE, errnoToString returns exactly "Decoding error
number N produced error M."; when M is EINVAL or ERANGE the result is not that
wording. -/
theorem errnoToString_other_reason (c : ErrnoH) (f : XsiStrerror) (stack : List Char)
    (N M : Int)
    (hstatus : (f N stack messageBufferSize N).status = -1)
    (hreason : (f N stack messageBufferSize N).errno = M) :
    (M ≠ c.EINVAL → M ≠ c.ERANGE →
      errnoToString c (StrerrorR.xsi f) stack N =
        some ("Decoding error number " ++ toString N ++ " produced error " ++ toString M ++ ".",
          M)) ∧
    (M = c.EINVAL ∨ M = c.ERANGE →
      ∀ e : Int, errnoToString c (StrerrorR.xsi f) stack N ≠
        some ("Decoding error number " ++ toString N ++ " produced error " ++ toString M ++ ".",
          e)) := by
  rw [errnoToString_xsi, if_pos hstatus, hreason]
  constructor
  · intro h1 h2
    rw [if_neg h1, if_neg h2]
  · intro h e heq
    rcases h with h | h
    · rw [if_pos h] at heq
      have := congrArg (fun r => r.1.data.head?) (Option.some.inj heq)
      simp only [head_invalid_number, head_other_reason] at this
      exact absurd this (by decide)
    · have hne : M ≠ c.EINVAL := fun h2 => c.distinct (h2.symm.trans h)
      rw [if_neg hne, if_pos h, toString_messageBufferSize] at heq
      have := congrArg (fun r => r.1.data.head?) (Option.some.inj heq)
      simp only [head_other_reason] at this
      rw [show ("1024" ++
        " bytes was not enough to contain the error description string for error number " ++
        toString N ++ ".").data.head? = some '1' from by
          rw [String.data_append, String.data_append, String.data_append]; rfl] at this
      exact absurd this (by decide)

theorem errnoToString_other_reason_witness :
    errnoToString linux (StrerrorR.xsi (failsWith 12)) garbage 5 =
      some ("Decoding error number 5 produced error 12.", 12) :=
  (errnoToString_other_reason linux (failsWith 12) garbage 5 12 (by decide) (by decide)).1
    (by decide) (by decide)

/-- C4 (amended): whenever the status-reporting primitive returns -1, errnoToString
returns one of the three synthetic messages, chosen by the reason left in errno, and
the result does not depend on what the message buffer holds. -/
theorem errnoToString_failure_is_synthetic (c : ErrnoH) (f : XsiStrerror)
    (stack : List Char) (N : Int)
    (hstatus : (f N stack messageBufferSize N).status = -1) :
    (((f N stack messageBufferSize N).errno = c.EINVAL ∧
        errnoToString c (StrerrorR.xsi f) stack N =
          some ("The value " ++ toString N ++ " is not a valid error number.", c.EINVAL)) ∨
      ((f N stack messageBufferSize N).errno = c.ERANGE ∧
        errnoToString c (StrerrorR.xsi f) stack N =
          some ("1024 bytes was not enough to contain the error description string for error number "
            ++ toString N ++ ".", c.ERANGE)) ∨
      ((f N stack messageBufferSize N).errno ≠ c.EINVAL ∧
        (f N stack messageBufferSize N).errno ≠ c.ERANGE ∧
        errnoToString c (StrerrorR.xsi f) stack N =
          some ("Decoding error number " ++ toString N ++ " produced error " ++
            toString (f N stack messageBufferSize N).errno ++ ".",
            (f N stack messageBufferSize N).errno))) ∧
    (∀ (g : XsiStrerror) (stack2 : List Char),
      (g N stack2 messageBufferSize N).status = -1 →
      (g N stack2 messageBufferSize N).errno = (f N stack messageBufferSize N).errno →
      errnoToString c (StrerrorR.xsi g) stack2 N = errnoToString c (StrerrorR.xsi f) stack N) := by
  constructor
  · rw [errnoToString_xsi, if_pos hstatus]
    by_cases h1 : (f N stack messageBufferSize N).errno = c.EINVAL
    · left
      refine ⟨h1, ?_⟩
      rw [if_pos h1, h1]
    · by_cases h2 : (f N stack messageBufferSize N).errno = c.ERANGE
      · right; left
        refine ⟨h2, ?_⟩
        rw [if_neg h1, if_pos h2, h2, toString_messageBufferSize]
        rfl
      · right; right
        refine ⟨h1, h2, ?_⟩
        rw [if_neg h1, if_neg h2]
  · intro g stack2 hg he
    rw [errnoToString_xsi, errnoToString_xsi, if_pos hstatus, if_pos hg, he]

theorem errnoToString_failure_is_synthetic_witness :
    errnoToString linux (StrerrorR.xsi oldGlibc) garbage 77 =
      some ("The value 77 is not a valid error number.", 22) ∧
    errnoToString linux (StrerrorR.xsi (failsWith 22)) (bufferOf "some text") 77 =
      errnoToString linux (StrerrorR.xsi oldGlibc) garbage 77 := by
  have h := errnoToString_failure_is_synthetic linux oldGlibc garbage 77 (by decide)
  refine ⟨?_, h.2 (failsWith 22) (bufferOf "some text") (by decide) (by decide)⟩
  rcases h.1 with h1 | h1 | h1
  · exact h1.2
  · exact absurd h1.1 (by decide)
  · exact absurd h1.1 (by decide)

/-- C4 (as stated, refuted): a status-reporting primitive that returns the reason
EINVAL as a positive status has failed, yet errnoToString returns the text the
primitive left in the buffer, which is none of the synthetic messages. -/
theorem errnoToString_positive_status_counterexample :
    (newGlibc 99999 garbage messageBufferSize 99999).status = linux.EINVAL ∧
    (newGlibc 99999 garbage messageBufferSize 99999).status ≠ 0 ∧
    errnoToString linux (StrerrorR.xsi newGlibc) garbage 99999 =
      some ("Unknown error 99999", 99999) ∧
    errnoToString linux (StrerrorR.xsi newGlibc) garbage 99999 ≠
      some ("The value 99999 is not a valid error number.", 99999) := by
  decide

/-! ## The success path of the status-reporting variant -/

/-- C10: when the pointer-returning primitive returns the buffer it was given, the
overload copies nothing and stores no terminator: the buffer after the call is the
buffer as the primitive left it, whatever its size and content, and the overload
returns 0. -/
theorem gnuCompatibleStrerror_same_buffer_untouched (f : GnuStrerror) (n : Int)
    (buf : List Char) (B : Nat) (e : Int)
    (hp : (f n buf B e).pointer = Pointer.messageBuffer) :
    gnuCompatibleStrerrorPtr f n buf B e =
      some ⟨0, (f n buf B e).messageBuffer, (f n buf B e).errno⟩ :=
  gnuCompatibleStrerrorPtr_in_place f n buf B e hp

theorem gnuCompatibleStrerror_same_buffer_untouched_witness :
    gnuCompatibleStrerrorPtr gnuInPlace 5 ['a', 'b', 'c'] 3 7 = some ⟨0, ['a', 'b', 'c'], 7⟩ :=
  gnuCompatibleStrerror_same_buffer_untouched gnuInPlace 5 ['a', 'b', 'c'] 3 7 rfl

/-- C8: copy with truncation. For a buffer of B >= 1 cells and a NUL-terminated text
t of length L returned at another address, the overload returns with every store
inside the buffer; afterwards the first min(L, B-1) cells of the buffer are those of
t, the cells at min(L, B-1) and at B-1 are NUL, and the text read from the buffer is
t when L <= B-1 and the first B-1 cells of t otherwise. -/
theorem gnuCompatibleStrerror_copy_truncates (f : GnuStrerror) (n : Int) (buf : List Char)
    (B : Nat) (e : Int) (t rest : List Char) (hB : 1 ≤ B) (hmod : B < SIZE_MOD)
    (hlen : (f n buf B e).messageBuffer.length = B)
    (hp : (f n buf B e).pointer = Pointer.elsewhere (t ++ NUL :: rest)) (ht : NUL ∉ t) :
    ∃ b : List Char,
      gnuCompatibleStrerrorPtr f n buf B e = some ⟨0, b, (f n buf B e).errno⟩ ∧
      b.length = B ∧
      (B + SIZE_MOD - 1) % SIZE_MOD < B ∧
      b.take (min t.length (B - 1)) = t.take (min t.length (B - 1)) ∧
      b[min t.length (B - 1)]? = some NUL ∧
      b[B - 1]? = some NUL ∧
      (t.length ≤ B - 1 → cString b = some t) ∧
      (B - 1 < t.length → cString b = some (t.take (B - 1))) := by
  refine ⟨_, gnuCompatibleStrerrorPtr_copy f n buf B e t rest hB hmod hlen hp ht,
    (copied_buffer t B hB ht).1, ?_, ?_, ?_, ?_, ?_, ?_⟩
  · rw [size_minus_one B hB hmod]; omega
  · have hl : (t.take (B - 1)).length = min t.length (B - 1) := by
      rw [List.length_take, Nat.min_comm]
    rw [← hl, List.take_left, hl]
    by_cases h : t.length ≤ B - 1
    · rw [Nat.min_eq_left h, List.take_of_length_le (Nat.le_refl _),
        List.take_of_length_le h]
    · rw [Nat.min_eq_right (by omega)]
  · rw [List.getElem?_append_right (by simp), List.getElem?_replicate, if_pos]
    simp
    omega
  · rw [List.getElem?_append_right (by simp), List.getElem?_replicate, if_pos]
    simp
    omega
  · intro h
    rw [(copied_buffer t B hB ht).2, List.take_of_length_le h]
  · intro _
    exact (copied_buffer t B hB ht).2

theorem gnuCompatibleStrerror_copy_truncates_witness :
    ∃ b : List Char,
      gnuCompatibleStrerrorPtr (gnuStatic "abcdef") 5 ['x', 'x', 'x', 'x'] 4 7 =
        some ⟨0, b, 7⟩ ∧
      b.length = 4 ∧
      (4 + SIZE_MOD - 1) % SIZE_MOD < 4 ∧
      b.take (min "abcdef".data.length (4 - 1)) = "abcdef".data.take (min "abcdef".data.length (4 - 1)) ∧
      b[min "abcdef".data.length (4 - 1)]? = some NUL ∧
      b[4 - 1]? = some NUL ∧
      ("abcdef".data.length ≤ 4 - 1 → cString b = some "abcdef".data) ∧
      (4 - 1 < "abcdef".data.length → cString b = some ("abcdef".data.take (4 - 1))) :=
  gnuCompatibleStrerror_copy_truncates (gnuStatic "abcdef") 5 ['x', 'x', 'x', 'x'] 4 7
    "abcdef".data [] (by decide) (by decide) rfl rfl (by decide)

/-- C7 (amended): the pointer-returning overload reports success whenever it returns,
and it does return for a valid buffer, whether the primitive returned the buffer
itself or a NUL-terminated text elsewhere; so errnoToString built on that variant
never takes the branch that builds the synthetic messages: whatever the constants of
errno.h are, every text it returns is the text read from the message buffer after a
call that returned 0, and so is a synthetic message only when the buffer holds that
very text. -/
theorem gnuCompatibleStrerror_pointer_variant_succeeds (c : ErrnoH) (f : GnuStrerror)
    (n : Int) (buf : List Char) (B : Nat) (e : Int) (stack : List Char) (N : Int) :
    (∀ r : Returned, gnuCompatibleStrerrorPtr f n buf B e = some r → r.status = 0) ∧
    ((f n buf B e).pointer = Pointer.messageBuffer →
      ∃ r : Returned, gnuCompatibleStrerrorPtr f n buf B e = some r ∧ r.status = 0) ∧
    (∀ t rest : List Char, 1 ≤ B → B < SIZE_MOD →
      (f n buf B e).messageBuffer.length = B →
      (f n buf B e).pointer = Pointer.elsewhere (t ++ NUL :: rest) → NUL ∉ t →
      ∃ r : Returned, gnuCompatibleStrerrorPtr f n buf B e = some r ∧ r.status = 0) ∧
    (errnoToString c (StrerrorR.gnu f) stack N =
      match gnuCompatibleStrerrorPtr f N stack messageBufferSize N with
      | none => none
      | some r =>
        match cString r.messageBuffer with
        | none => none
        | some text => some (String.mk text, r.errno)) ∧
    (∀ c2 : ErrnoH,
      errnoToString c2 (StrerrorR.gnu f) stack N = errnoToString c (StrerrorR.gnu f) stack N) ∧
    (∀ (s : String) (e2 : Int), errnoToString c (StrerrorR.gnu f) stack N = some (s, e2) →
      ∃ r : Returned, gnuCompatibleStrerrorPtr f N stack messageBufferSize N = some r ∧
        r.status = 0 ∧ cString r.messageBuffer = some s.data ∧ e2 = r.errno) := by
  refine ⟨gnuCompatibleStrerrorPtr_status f n buf B e, ?_, ?_, errnoToString_gnu c f stack N,
    ?_, ?_⟩
  · intro hp
    exact ⟨_, gnuCompatibleStrerrorPtr_in_place f n buf B e hp, rfl⟩
  · intro t rest hB hmod hlen hp ht
    exact ⟨_, gnuCompatibleStrerrorPtr_copy f n buf B e t rest hB hmod hlen hp ht, rfl⟩
  · intro c2
    rw [errnoToString_gnu, errnoToString_gnu]
  · intro s e2 h
    rw [errnoToString_gnu] at h
    cases hcall : gnuCompatibleStrerrorPtr f N stack messageBufferSize N with
    | none => rw [hcall] at h; cases h
    | some r =>
      rw [hcall] at h
      cases hread : cString r.messageBuffer with
      | none => simp only [hread] at h; cases h
      | some text =>
        simp only [hread] at h
        cases h
        exact ⟨r, rfl, gnuCompatibleStrerrorPtr_status f N stack _ N r hcall, hread, rfl⟩

theorem gnuCompatibleStrerror_pointer_variant_succeeds_witness :
    (∃ r : Returned,
      gnuCompatibleStrerrorPtr (gnuStatic "abcdef") 5 ['x', 'x', 'x', 'x'] 4 7 = some r ∧
        r.status = 0) ∧
    (∃ r : Returned,
      gnuCompatibleStrerrorPtr gnuInPlace 5 ['a', NUL, 'x', 'x'] 4 7 = some r ∧ r.status = 0) ∧
    (∃ r : Returned,
      gnuCompatibleStrerrorPtr (gnuStatic "No such file or directory") 2 garbage
          messageBufferSize 2 = some r ∧
        r.status = 0 ∧ cString r.messageBuffer = some "No such file or directory".data ∧
        (2 : Int) = r.errno) :=
  ⟨(gnuCompatibleStrerror_pointer_variant_succeeds linux (gnuStatic "abcdef") 5
      ['x', 'x', 'x', 'x'] 4 7 garbage 5).2.2.1 "abcdef".data [] (by decide) (by decide) rfl rfl
      (by decide),
   (gnuCompatibleStrerror_pointer_variant_succeeds linux gnuInPlace 5
      ['a', NUL, 'x', 'x'] 4 7 garbage 5).2.1 rfl,
   (gnuCompatibleStrerror_pointer_variant_succeeds linux
      (gnuStatic "No such file or directory") 2 garbage 4 2 garbage 2).2.2.2.2.2
      "No such file or directory" 2
      (errnoToString_gnu_copy linux (gnuStatic "No such file or directory") garbage 2
        "No such file or directory".data [] garbage_length rfl (by decide))⟩

/-- C7 (as stated, refuted): a pointer-returning primitive whose text for code 5 is
"The value 5 is not a valid error number." makes errnoToString return that text, which
is the first synthetic message for code 5. -/
theorem errnoToString_pointer_variant_counterexample :
    errnoToString linux (StrerrorR.gnu (gnuStatic "The value 5 is not a valid error number."))
        garbage 5 =
      some ("The value " ++ toString (5 : Int) ++ " is not a valid error number.", 5) :=
  errnoToString_gnu_copy linux (gnuStatic "The value 5 is not a valid error number.") garbage 5
    "The value 5 is not a valid error number.".data [] garbage_length rfl (by decide)

/-! ## Termination of the returned text -/

/-- C5 (amended): on the path that returns the buffer's text, the text returned is the
cells that precede the first NUL of the 1024-cell buffer. When the pointer-returning
primitive returns a NUL-terminated text elsewhere, of any length, the overload's copy
and terminator make the result the first 1023 cells of that text at most, read inside
the buffer. When the pointer-returning primitive returns the buffer itself, or the
status-reporting primitive returns a status other than -1, the program stores no
terminator: when the primitive left a NUL in the buffer the result is exactly the
cells before the first NUL, at most 1023 of them, and when it left none the read runs
off the buffer. -/
theorem errnoToString_text_within_buffer (c : ErrnoH) (stack : List Char) (N : Int) :
    (∀ (f : GnuStrerror) (t rest : List Char),
      (f N stack messageBufferSize N).messageBuffer.length = messageBufferSize →
      (f N stack messageBufferSize N).pointer = Pointer.elsewhere (t ++ NUL :: rest) →
      NUL ∉ t →
      errnoToString c (StrerrorR.gnu f) stack N =
        some (String.mk (t.take 1023), (f N stack messageBufferSize N).errno) ∧
      (String.mk (t.take 1023)).length ≤ 1023) ∧
    (∀ f : GnuStrerror,
      (f N stack messageBufferSize N).messageBuffer.length = messageBufferSize →
      (f N stack messageBufferSize N).pointer = Pointer.messageBuffer →
      (NUL ∈ (f N stack messageBufferSize N).messageBuffer →
        ∃ text rest : List Char,
          (f N stack messageBufferSize N).messageBuffer = text ++ NUL :: rest ∧ NUL ∉ text ∧
          errnoToString c (StrerrorR.gnu f) stack N =
            some (String.mk text, (f N stack messageBufferSize N).errno) ∧
          (String.mk text).length ≤ 1023) ∧
      (NUL ∉ (f N stack messageBufferSize N).messageBuffer →
        errnoToString c (StrerrorR.gnu f) stack N = none)) ∧
    (∀ f : XsiStrerror,
      (f N stack messageBufferSize N).messageBuffer.length = messageBufferSize →
      (f N stack messageBufferSize N).status ≠ -1 →
      (NUL ∈ (f N stack messageBufferSize N).messageBuffer →
        ∃ text rest : List Char,
          (f N stack messageBufferSize N).messageBuffer = text ++ NUL :: rest ∧ NUL ∉ text ∧
          errnoToString c (StrerrorR.xsi f) stack N =
            some (String.mk text, (f N stack messageBufferSize N).errno) ∧
          (String.mk text).length ≤ 1023) ∧
      (NUL ∉ (f N stack messageBufferSize N).messageBuffer →
        errnoToString c (StrerrorR.xsi f) stack N = none)) := by
  refine ⟨?_, ?_, ?_⟩
  · intro f t rest hlen hp ht
    refine ⟨errnoToString_gnu_copy c f stack N t rest hlen hp ht, ?_⟩
    show (t.take 1023).length ≤ 1023
    rw [List.length_take]
    exact Nat.min_le_left _ _
  · intro f hlen hp
    exact ⟨errnoToString_gnu_terminated c f stack N hp hlen,
      errnoToString_gnu_unterminated c f stack N hp⟩
  · intro f hlen hstatus
    exact ⟨errnoToString_xsi_terminated c f stack N hstatus hlen,
      errnoToString_xsi_unterminated c f stack N hstatus⟩

theorem errnoToString_text_within_buffer_witness :
    (errnoToString linux (StrerrorR.gnu (gnuStatic (String.mk (List.replicate 2000 'a'))))
        garbage 5 =
      some (String.mk ((List.replicate 2000 'a').take 1023), 5) ∧
    (String.mk ((List.replicate 2000 'a').take 1023)).length ≤ 1023) ∧
    (∃ text rest : List Char,
      (oldGlibc 2 garbage messageBufferSize 2).messageBuffer = text ++ NUL :: rest ∧
      NUL ∉ text ∧
      errnoToString linux (StrerrorR.xsi oldGlibc) garbage 2 = some (String.mk text, 2) ∧
      (String.mk text).length ≤ 1023) :=
  ⟨(errnoToString_text_within_buffer linux garbage 5).1
    (gnuStatic (String.mk (List.replicate 2000 'a'))) (List.replicate 2000 'a') []
    garbage_length rfl
    (fun h => absurd (List.eq_of_mem_replicate h) (by decide)),
   ((errnoToString_text_within_buffer linux garbage 2).2.2 oldGlibc
    bufferOf_enoent_length (by decide)).1 bufferOf_enoent_terminated⟩

/-- C5 (as stated, refuted): with 1024 cells none of which is NUL in the buffer, a
status-reporting primitive that returns 0, or the positive status ERANGE, without
storing anything, and a pointer-returning primitive that returns the buffer itself,
each make the read of the returned text run off the buffer. -/
theorem errnoToString_unterminated_counterexample :
    garbage.length = 1024 ∧
    errnoToString linux (StrerrorR.xsi (returnsReason 0)) garbage 5 = none ∧
    errnoToString linux (StrerrorR.xsi (returnsReason 34)) garbage 5 = none ∧
    errnoToString linux (StrerrorR.gnu gnuInPlace) garbage 5 = none := by
  exact ⟨garbage_length,
    errnoToString_xsi_unterminated linux (returnsReason 0) garbage 5 (by decide)
      garbage_no_terminator,
    errnoToString_xsi_unterminated linux (returnsReason 34) garbage 5 (by decide)
      garbage_no_terminator,
    errnoToString_gnu_unterminated linux gnuInPlace garbage 5 rfl garbage_no_terminator⟩

/-! ## The ambient errno -/

/-- C6 (amended): errnoToString stores nothing in errno itself: the errno at return is
the errno the decoding primitive left. So when the primitive leaves errno as it
found it, the errno at return is the errno at entry, and a second call made with the
same content of the local array captures the same code and returns the same text. -/
theorem errnoToString_errno_left_by_primitive (c : ErrnoH) (stack : List Char) (N : Int)
    (r : String × Int) :
    (∀ f : XsiStrerror, errnoToString c (StrerrorR.xsi f) stack N = some r →
      r.2 = (f N stack messageBufferSize N).errno ∧
      ((f N stack messageBufferSize N).errno = N →
        r.2 = N ∧ errnoToString c (StrerrorR.xsi f) stack r.2 = some r)) ∧
    (∀ f : GnuStrerror, errnoToString c (StrerrorR.gnu f) stack N = some r →
      r.2 = (f N stack messageBufferSize N).errno ∧
      ((f N stack messageBufferSize N).errno = N →
        r.2 = N ∧ errnoToString c (StrerrorR.gnu f) stack r.2 = some r)) := by
  have hx : ∀ f : XsiStrerror, errnoToString c (StrerrorR.xsi f) stack N = some r →
      r.2 = (f N stack messageBufferSize N).errno := by
    intro f h
    rw [errnoToString_xsi] at h
    split at h
    · split at h
      · cases h; rfl
      · split at h
        · cases h; rfl
        · cases h; rfl
    · split at h
      · cases h
      · cases h; rfl
  have hg : ∀ f : GnuStrerror, errnoToString c (StrerrorR.gnu f) stack N = some r →
      r.2 = (f N stack messageBufferSize N).errno := by
    intro f h
    rw [errnoToString_gnu] at h
    split at h
    · cases h
    · rename_i r2 hcall
      split at h
      · cases h
      · cases h
        exact gnuCompatibleStrerrorPtr_errno f N stack _ N r2 hcall
  constructor
  · intro f h
    refine ⟨hx f h, fun he => ?_⟩
    have h2 : r.2 = N := (hx f h).trans he
    exact ⟨h2, by rw [h2]; exact h⟩
  · intro f h
    refine ⟨hg f h, fun he => ?_⟩
    have h2 : r.2 = N := (hg f h).trans he
    exact ⟨h2, by rw [h2]; exact h⟩

theorem errnoToString_errno_left_by_primitive_witness :
    errnoToString linux (StrerrorR.xsi oldGlibc) garbage 2 =
      some ("No such file or directory", 2) ∧
    (("No such file or directory", 2) : String × Int).2 = 2 ∧
    errnoToString linux (StrerrorR.xsi oldGlibc) garbage
      (("No such file or directory", 2) : String × Int).2 =
        some ("No such file or directory", 2) := by
  have h0 : errnoToString linux (StrerrorR.xsi oldGlibc) garbage 2 =
      some ("No such file or directory", 2) := by decide
  exact ⟨h0, ((errnoToString_errno_left_by_primitive linux garbage 2
    ("No such file or directory", 2)).1 oldGlibc h0).2 (by decide)⟩

/-- C6 (as stated, refuted): entered with errno 99999, on a primitive that returns -1
and leaves EINVAL (22) in errno, errnoToString returns with errno 22; the call made
right after captures 22 and returns another text. -/
theorem errnoToString_errno_changed_counterexample :
    errnoToString linux (StrerrorR.xsi oldGlibc) garbage 99999 =
      some ("The value 99999 is not a valid error number.", 22) ∧
    (22 : Int) ≠ 99999 ∧
    errnoToString linux (StrerrorR.xsi oldGlibc) garbage 22 =
      some ("Invalid argument", 22) := by
  decide

end ErrnoToString
